import Mathlib

/-!
Shallow embedding of the Raspberry-Pi weather-station pipeline.

The streaming aggregation / anomaly-detection loop is embedded from
`scripts/data_acquisition.py` (functions `aggregate_buffer`,
`detect_anomalies`, and the processing loop `fetch_and_process_data`).
The dashboard's UV/ambient-light event rendering is embedded from
`pages/4_UV_and_Light.py` (the rolling-median `uv_smooth`, the level
masks, and the contiguous-run band/marker computation).

Python floats are modelled by exact rationals; Python `None` by `Option`
or the `PyVal.vNone` constructor; a Python exception that escapes a call
is modelled by an `Option`-valued result being `none`.
-/

/-- The six monitored sensor channels, in the iteration order used by the
`sensors` lists of `aggregate_buffer` and `detect_anomalies` and by the
`historical_data` dict. -/
inductive Sensor where
  | temperature
  | humidity
  | pressure
  | AQI
  | uv_data
  | ambient_light
deriving DecidableEq

/-- The `sensors = ["temperature", ..., "ambient_light"]` list of the source. -/
def sensorList : List Sensor :=
  [.temperature, .humidity, .pressure, .AQI, .uv_data, .ambient_light]

/-- String key of each channel, used to build the record field names. -/
def sensorName : Sensor → String
  | .temperature => "temperature"
  | .humidity => "humidity"
  | .pressure => "pressure"
  | .AQI => "AQI"
  | .uv_data => "uv_data"
  | .ambient_light => "ambient_light"

/-- The `THRESHOLDS` dict of z-score thresholds.  The source reads it with
`THRESHOLDS.get(sensor, 2.0)`; every sensor is a key, so the `2.0` default
is never taken. -/
def THRESHOLDS : Sensor → ℚ
  | .temperature => 2
  | .humidity => 5/2
  | .pressure => 9/5
  | .AQI => 7/2
  | .uv_data => 7/2
  | .ambient_light => 3

/-- One raw websocket reading: a partial map from channels to values
(`sensor in item` can fail per channel).  The arrival timestamp that the
loop attaches to each reading is never read downstream and is omitted. -/
def RawReading : Type := Sensor → Option ℚ

/-- The list comprehension `[item[sensor] for item in buffer if sensor in item]`
of `aggregate_buffer`. -/
def channelValues (buffer : List RawReading) (s : Sensor) : List ℚ :=
  buffer.filterMap (fun item => item s)

/-- The aggregated record produced by `aggregate_buffer`: per channel the
`{sensor}_avg` / `{sensor}_min` / `{sensor}_max` entries (`none` models the
Python `None` stored when a channel has no readings) plus the single
`timestamp` entry (wall-clock time, abstracted to a tick). -/
structure Agg where
  avg : Sensor → Option ℚ
  min : Sensor → Option ℚ
  max : Sensor → Option ℚ
  timestamp : ℕ

/-- `aggregate_buffer`: for each sensor, if any readings are present their
arithmetic mean and Python `min`/`max`; otherwise the record stores `None`
for all three keys. -/
def aggregate_buffer (buffer : List RawReading) (now : ℕ) : Agg :=
  { avg := fun s =>
      match channelValues buffer s with
      | [] => none
      | x :: xs => some ((x :: xs).sum / (x :: xs).length)
    min := fun s =>
      match channelValues buffer s with
      | [] => none
      | x :: xs => some (xs.foldl min x)
    max := fun s =>
      match channelValues buffer s with
      | [] => none
      | x :: xs => some (xs.foldl max x)
    timestamp := now }

/-- Bessel-corrected sample variance of the history, i.e. the square of
`statistics.stdev(history)`. -/
def sampleVar (h : List ℚ) : ℚ :=
  let m := h.sum / h.length
  (h.map (fun x => (x - m)^2)).sum / ((h.length - 1 : ℕ) : ℚ)

/-- Body of the `for sensor in sensors` loop of `detect_anomalies` for one
channel.  Mirrors the source, including its evaluation order:
the guard `if history and len(history) >= 2`;
`hist_std = statistics.stdev(history) if len(history) > 1 else 0.0001`
(tracked as its square `hist_var`, since `statistics.stdev` is a real
square root; `hist_std != 0` iff `hist_var != 0`);
`z_score = (current_value - hist_mean) / hist_std if hist_std != 0 else 0`
is a conditional expression that tests `hist_std != 0` first: when the
standard deviation is exactly zero it short-circuits to `z_score = 0`
without evaluating the subtraction, so a `None` current value raises
nothing on that path; only when the standard deviation is nonzero does
Python evaluate `current_value - hist_mean`, which raises `TypeError`
(modelled by `none`) if the current value is Python `None`;
finally `anomalies[...] = abs(z_score) > threshold`.
When `hist_var > 0`, `abs((x - mean) / sqrt hist_var) > thr` holds iff
`thr < 0 or thr^2 * hist_var < (x - mean)^2` (lemma `zscore_sq_equiv`
below), which is how the comparison is carried out in exact arithmetic. -/
def detect_one (history : List ℚ) (current : Option ℚ) (thr : ℚ) : Option Bool :=
  if 2 ≤ history.length then
    let hist_mean := history.sum / history.length
    let hist_var := if 1 < history.length then sampleVar history else (1/10000)^2
    if hist_var = 0 then some (decide (|(0 : ℚ)| > thr))
    else
      match current with
      | none => none
      | some x => some (decide (thr < 0 ∨ thr^2 * hist_var < (x - hist_mean)^2))
  else some false

/-- The per-process `historical_data` dict: one list of past batch averages
per channel. -/
def Histories : Type := Sensor → List ℚ

/-- `detect_anomalies`: one flag per channel, computed channel by channel in
the dict iteration order; an exception at any channel aborts the whole call
(`none`). -/
def detect_anomalies (hist : Histories) (agg : Agg) : Option (Sensor → Bool) := do
  let t ← detect_one (hist .temperature) (agg.avg .temperature) (THRESHOLDS .temperature)
  let h ← detect_one (hist .humidity) (agg.avg .humidity) (THRESHOLDS .humidity)
  let p ← detect_one (hist .pressure) (agg.avg .pressure) (THRESHOLDS .pressure)
  let a ← detect_one (hist .AQI) (agg.avg .AQI) (THRESHOLDS .AQI)
  let u ← detect_one (hist .uv_data) (agg.avg .uv_data) (THRESHOLDS .uv_data)
  let l ← detect_one (hist .ambient_light) (agg.avg .ambient_light) (THRESHOLDS .ambient_light)
  pure (fun s =>
    match s with
    | .temperature => t
    | .humidity => h
    | .pressure => p
    | .AQI => a
    | .uv_data => u
    | .ambient_light => l)

/-- A value stored in an InfluxDB point field: a number, an integer
(`int(flag)` encodes the anomaly booleans as 0/1), or Python `None`. -/
inductive PyVal where
  | vNone
  | vNum (q : ℚ)
  | vInt (n : ℤ)
deriving DecidableEq

/-- The value `aggregated_record.get(key, 0)` yields for an aggregate key:
the key is always present in the record (set by `aggregate_buffer`), so the
stored value is returned as-is — possibly Python `None` — and the `0`
default is never taken. -/
def pyOf : Option ℚ → PyVal
  | none => PyVal.vNone
  | some q => PyVal.vNum q

/-- The InfluxDB `Point` built in `fetch_and_process_data`: measurement
`environment`, tag `location=office`, the 18 aggregate fields followed by
the 6 anomaly fields in source order, timed at the aggregate timestamp. -/
structure OutputPoint where
  measurement : String
  tags : List (String × String)
  fields : List (String × PyVal)
  time : ℕ

/-- Point construction from `fetch_and_process_data`: per sensor the
`_avg` / `_min` / `_max` fields via `aggregated_record.get(key, 0)`, then
per sensor the `_anomaly` field via `int(aggregated_record.get(key))`. -/
def buildPoint (agg : Agg) (flags : Sensor → Bool) : OutputPoint :=
  { measurement := "environment"
    tags := [("location", "office")]
    fields :=
      (sensorList.flatMap fun s =>
        [(sensorName s ++ "_avg", pyOf (agg.avg s)),
         (sensorName s ++ "_min", pyOf (agg.min s)),
         (sensorName s ++ "_max", pyOf (agg.max s))]) ++
      (sensorList.map fun s =>
        (sensorName s ++ "_anomaly", PyVal.vInt (if flags s then 1 else 0)))
    time := agg.timestamp }

/-- History update for one channel, from the loop
`if aggregated_value is not None: append; if len > 10: pop(0)`. -/
def updateHistory (h : List ℚ) (v : Option ℚ) : List ℚ :=
  match v with
  | none => h
  | some x =>
      let h2 := h ++ [x]
      if 10 < h2.length then h2.drop 1 else h2

/-- The `for sensor in historical_data.keys()` update loop. -/
def updateAll (hist : Histories) (agg : Agg) : Histories :=
  fun s => updateHistory (hist s) (agg.avg s)

/-- One interval boundary of the processing loop: aggregate the buffer,
detect anomalies against the pre-update history, update the history, build
the point.  `none` models an exception escaping `detect_anomalies` (the
history is then left untouched, since the update loop runs after the
call). -/
def stepInterval (hist : Histories) (buffer : List RawReading) (now : ℕ) :
    Option (OutputPoint × Histories) :=
  let agg := aggregate_buffer buffer now
  match detect_anomalies hist agg with
  | none => none
  | some flags => some (buildPoint agg flags, updateAll hist agg)

/-- One arrival of the processing loop: the received reading, whether the
wall-clock check `time.time() - start_time >= AGGREGATION_INTERVAL` passes
after appending it, the current wall-clock tick, and whether the sink write
(if one is attempted) succeeds. -/
structure LoopStep where
  msg : RawReading
  elapsed : Bool
  now : ℕ
  writeOk : Bool

/-- Outcome of running the loop on a finite arrival schedule: the points
actually written to the sink, the final history state, and whether an
exception reached the outer `except` handler (which logs it and ends the
loop). -/
structure LoopResult where
  written : List OutputPoint
  hist : Histories
  crashed : Bool

/-- The `while True` body of `fetch_and_process_data`, driven by a finite
arrival schedule.  Everything runs inside one `try`: an exception raised by
`detect_anomalies` or by the sink write propagates to the outer handler,
which logs it and terminates the loop — no later arrival is processed. -/
def fetch_and_process_data : List LoopStep → Histories → List RawReading → LoopResult
  | [], hist, _ => { written := [], hist := hist, crashed := false }
  | step :: rest, hist, buffer =>
      let buffer2 := buffer ++ [step.msg]
      if step.elapsed then
        match stepInterval hist buffer2 step.now with
        | none => { written := [], hist := hist, crashed := true }
        | some (pt, hist2) =>
            if step.writeOk then
              let r := fetch_and_process_data rest hist2 []
              { written := pt :: r.written, hist := r.hist, crashed := r.crashed }
            else { written := [], hist := hist2, crashed := true }
      else fetch_and_process_data rest hist buffer2

/-- The initial `historical_data` state: every channel's history empty. -/
def emptyHist : Histories := fun _ => []

/-- Insertion of one element into a sorted list (helper for `sortList`). -/
def sortIns (x : ℚ) : List ℚ → List ℚ
  | [] => [x]
  | y :: ys => if x ≤ y then x :: y :: ys else y :: sortIns x ys

/-- Sorting, as used by the median underlying `pandas.Rolling.median`. -/
def sortList : List ℚ → List ℚ
  | [] => []
  | x :: xs => sortIns x (sortList xs)

/-- Statistical median of a list: middle element of the sorted list, or the
mean of the two middle elements for an even count. -/
def median (l : List ℚ) : ℚ :=
  let s := sortList l
  let n := s.length
  if n % 2 = 1 then s.getD (n / 2) 0
  else (s.getD (n / 2 - 1) 0 + s.getD (n / 2) 0) / 2

/-- Row window of `rolling(window=21, center=True, min_periods=1)` at row
`i`: rows `max(0, i-10)` through `min(n-1, i+10)` of the series. -/
def uv_window (xs : List ℚ) (i : ℕ) : List ℚ :=
  (xs.drop (i - 10)).take (min (i + 11) xs.length - (i - 10))

/-- The dashboard's smoothed UV series
`df['uv_data'].rolling(window=21, center=True, min_periods=1).median()`
at row `i`. -/
def uv_smooth (xs : List ℚ) (i : ℕ) : ℚ := median (uv_window xs i)

/-- The dashboard's `uv_mask = dff['uv_smooth'] >= 0.85` at row `i`. -/
def uv_mask (xs : List ℚ) (i : ℕ) : Bool := decide (17/20 ≤ uv_smooth xs i)

/-- Row `i` is the first row of a maximal run of `true` in `mask`.  This is
where the dashboard's `runs = (mask != mask.shift(1)).cumsum()` grouping
starts a new group whose first row satisfies the mask, i.e. where a shaded
band begins and a start marker is placed. -/
def runStart (mask : ℕ → Bool) (i : ℕ) : Bool :=
  mask i && (decide (i = 0) || !mask (i - 1))

/-- A sunlight-exposure band (with its start marker) begins at row `i`. -/
def uvBandStart (xs : List ℚ) (i : ℕ) : Bool := runStart (uv_mask xs) i

/-- The dashboard's `light_mask = dff['ambient_light'] >= 20` at row `i`. -/
def light_mask (ys : List ℚ) (i : ℕ) : Bool := decide (20 ≤ ys.getD i 0)

/-- A light-on band begins at row `i`: the dashboard places its "light
turned on" marker at the first row of each maximal run of
`ambient_light >= 20`. -/
def lightOnMarker (ys : List ℚ) (i : ℕ) : Bool := runStart (light_mask ys) i

/-- Justification for carrying the z-score comparison squared in exact
arithmetic: for a positive variance `v`, the Python test
`abs(d / sqrt v) > t` is equivalent to `t < 0 or t^2 * v < d^2`. -/
theorem zscore_sq_equiv (d v t : ℝ) (hv : 0 < v) :
    t < |d / Real.sqrt v| ↔ (t < 0 ∨ t^2 * v < d^2) := by
  have hs : 0 < Real.sqrt v := Real.sqrt_pos.mpr hv
  rw [abs_div, abs_of_pos hs]
  constructor
  · intro h
    rcases lt_or_le t 0 with ht | ht
    · exact Or.inl ht
    · refine Or.inr ?_
      rw [lt_div_iff₀ hs] at h
      have h2 : (t * Real.sqrt v)^2 < |d|^2 := by
        apply pow_lt_pow_left₀ h (by positivity)
        norm_num
      calc t^2 * v = (t * Real.sqrt v)^2 := by
            rw [mul_pow, Real.sq_sqrt hv.le]
        _ < |d|^2 := h2
        _ = d^2 := sq_abs d
  · intro h
    rcases h with ht | h
    · exact lt_of_lt_of_le ht (by positivity)
    · rcases lt_or_le t 0 with ht | ht
      · exact lt_of_lt_of_le ht (by positivity)
      · rw [lt_div_iff₀ hs]
        have h2 : (t * Real.sqrt v)^2 < |d|^2 := by
          rw [mul_pow, Real.sq_sqrt hv.le, sq_abs]; exact h
        exact lt_of_pow_lt_pow_left₀ 2 (abs_nonneg d) h2

lemma updateHistory_length_le (h : List ℚ) (v : Option ℚ) (hb : h.length ≤ 10) :
    (updateHistory h v).length ≤ 10 := by
  cases v with
  | none => simpa [updateHistory] using hb
  | some x =>
      simp only [updateHistory]
      split
      · simp only [List.length_drop, List.length_append, List.length_singleton]
        omega
      · rename_i hlt
        simp only [List.length_append, List.length_singleton] at hlt ⊢
        omega

lemma stepInterval_hist_bounded {hist : Histories} {buffer : List RawReading} {now : ℕ}
    {pt : OutputPoint} {hist2 : Histories}
    (hstep : stepInterval hist buffer now = some (pt, hist2))
    (hb : ∀ s, (hist s).length ≤ 10) : ∀ s, (hist2 s).length ≤ 10 := by
  simp only [stepInterval] at hstep
  cases hda : detect_anomalies hist (aggregate_buffer buffer now) with
  | none => rw [hda] at hstep; simp at hstep
  | some flags =>
      rw [hda] at hstep
      simp only [Option.some.injEq, Prod.mk.injEq] at hstep
      intro s
      rw [← hstep.2]
      exact updateHistory_length_le _ _ (hb s)

lemma runLoop_hist_bounded (steps : List LoopStep) :
    ∀ (hist : Histories) (buffer : List RawReading),
      (∀ s, (hist s).length ≤ 10) →
      ∀ s, ((fetch_and_process_data steps hist buffer).hist s).length ≤ 10 := by
  induction steps with
  | nil => intro hist buffer hb s; simpa [fetch_and_process_data] using hb s
  | cons step rest ih =>
      intro hist buffer hb s
      cases he : step.elapsed with
      | false =>
          simp only [fetch_and_process_data, he, Bool.false_eq_true, if_false]
          exact ih hist (buffer ++ [step.msg]) hb s
      | true =>
          simp only [fetch_and_process_data, he, if_true]
          cases hstep : stepInterval hist (buffer ++ [step.msg]) step.now with
          | none => simpa using hb s
          | some pr =>
              obtain ⟨pt, hist2⟩ := pr
              have hb2 := stepInterval_hist_bounded hstep hb
              cases hw : step.writeOk with
              | true => simpa using ih hist2 [] hb2 s
              | false => simpa using hb2 s

lemma detect_anomalies_eq_none (hist : Histories) (agg : Agg) (s : Sensor)
    (hn : detect_one (hist s) (agg.avg s) (THRESHOLDS s) = none) :
    detect_anomalies hist agg = none := by
  cases s with
  | temperature => simp [detect_anomalies, hn]
  | humidity =>
      cases h1 : detect_one (hist .temperature) (agg.avg .temperature)
          (THRESHOLDS .temperature) <;>
        simp [detect_anomalies, h1, hn]
  | pressure =>
      cases h1 : detect_one (hist .temperature) (agg.avg .temperature)
          (THRESHOLDS .temperature) <;>
      cases h2 : detect_one (hist .humidity) (agg.avg .humidity)
          (THRESHOLDS .humidity) <;>
        simp [detect_anomalies, h1, h2, hn]
  | AQI =>
      cases h1 : detect_one (hist .temperature) (agg.avg .temperature)
          (THRESHOLDS .temperature) <;>
      cases h2 : detect_one (hist .humidity) (agg.avg .humidity)
          (THRESHOLDS .humidity) <;>
      cases h3 : detect_one (hist .pressure) (agg.avg .pressure)
          (THRESHOLDS .pressure) <;>
        simp [detect_anomalies, h1, h2, h3, hn]
  | uv_data =>
      cases h1 : detect_one (hist .temperature) (agg.avg .temperature)
          (THRESHOLDS .temperature) <;>
      cases h2 : detect_one (hist .humidity) (agg.avg .humidity)
          (THRESHOLDS .humidity) <;>
      cases h3 : detect_one (hist .pressure) (agg.avg .pressure)
          (THRESHOLDS .pressure) <;>
      cases h4 : detect_one (hist .AQI) (agg.avg .AQI)
          (THRESHOLDS .AQI) <;>
        simp [detect_anomalies, h1, h2, h3, h4, hn]
  | ambient_light =>
      cases h1 : detect_one (hist .temperature) (agg.avg .temperature)
          (THRESHOLDS .temperature) <;>
      cases h2 : detect_one (hist .humidity) (agg.avg .humidity)
          (THRESHOLDS .humidity) <;>
      cases h3 : detect_one (hist .pressure) (agg.avg .pressure)
          (THRESHOLDS .pressure) <;>
      cases h4 : detect_one (hist .AQI) (agg.avg .AQI)
          (THRESHOLDS .AQI) <;>
      cases h5 : detect_one (hist .uv_data) (agg.avg .uv_data)
          (THRESHOLDS .uv_data) <;>
        simp [detect_anomalies, h1, h2, h3, h4, h5, hn]

lemma foldl_min_le (xs : List ℚ) :
    ∀ x : ℚ, xs.foldl min x ≤ x ∧ ∀ y ∈ xs, xs.foldl min x ≤ y := by
  induction xs with
  | nil => intro x; exact ⟨le_refl x, by simp⟩
  | cons y ys ih =>
      intro x
      simp only [List.foldl_cons]
      have h := ih (min x y)
      refine ⟨le_trans h.1 (min_le_left x y), ?_⟩
      intro z hz
      rcases List.mem_cons.mp hz with rfl | hz2
      · exact le_trans h.1 (min_le_right x z)
      · exact h.2 z hz2

lemma le_foldl_max (xs : List ℚ) :
    ∀ x : ℚ, x ≤ xs.foldl max x ∧ ∀ y ∈ xs, y ≤ xs.foldl max x := by
  induction xs with
  | nil => intro x; exact ⟨le_refl x, by simp⟩
  | cons y ys ih =>
      intro x
      simp only [List.foldl_cons]
      have h := ih (max x y)
      refine ⟨le_trans (le_max_left x y) h.1, ?_⟩
      intro z hz
      rcases List.mem_cons.mp hz with rfl | hz2
      · exact le_trans (le_max_right x z) h.1
      · exact h.2 z hz2

lemma mul_le_sum_of_forall_le (l : List ℚ) (m : ℚ) (h : ∀ y ∈ l, m ≤ y) :
    (l.length : ℚ) * m ≤ l.sum := by
  induction l with
  | nil => simp
  | cons x xs ih =>
      have hx : m ≤ x := h x (by simp)
      have hxs := ih (fun y hy => h y (by simp [hy]))
      simp only [List.length_cons, List.sum_cons]
      push_cast
      nlinarith

lemma sum_le_mul_of_forall_le (l : List ℚ) (m : ℚ) (h : ∀ y ∈ l, y ≤ m) :
    l.sum ≤ (l.length : ℚ) * m := by
  induction l with
  | nil => simp
  | cons x xs ih =>
      have hx : x ≤ m := h x (by simp)
      have hxs := ih (fun y hy => h y (by simp [hy]))
      simp only [List.length_cons, List.sum_cons]
      push_cast
      nlinarith

lemma sortIns_replicate (c : ℚ) (n : ℕ) :
    sortIns c (List.replicate n c) = List.replicate (n + 1) c := by
  cases n with
  | zero => simp [sortIns]
  | succ k => simp [List.replicate_succ, sortIns]

lemma sortList_replicate (c : ℚ) (n : ℕ) :
    sortList (List.replicate n c) = List.replicate n c := by
  induction n with
  | zero => simp [sortList]
  | succ k ih =>
      rw [List.replicate_succ]
      simp only [sortList, ih]
      rw [sortIns_replicate, List.replicate_succ]

lemma getD_replicate (c : ℚ) (n i : ℕ) (h : i < n) :
    (List.replicate n c).getD i 0 = c := by
  induction n generalizing i with
  | zero => omega
  | succ k ih =>
      cases i with
      | zero => simp [List.replicate_succ]
      | succ j =>
          rw [List.replicate_succ]
          simpa using ih j (by omega)

lemma median_replicate (c : ℚ) (n : ℕ) (h : 0 < n) :
    median (List.replicate n c) = c := by
  unfold median
  rw [sortList_replicate]
  simp only [List.length_replicate]
  split
  · exact getD_replicate c n (n / 2) (by omega)
  · rw [getD_replicate c n (n / 2 - 1) (by omega), getD_replicate c n (n / 2) (by omega)]
    ring

lemma uv_window_replicate (c : ℚ) (n i : ℕ) :
    uv_window (List.replicate n c) i =
      List.replicate (min (i + 11) n - (i - 10)) c := by
  unfold uv_window
  rw [List.drop_replicate, List.take_replicate]
  congr 1
  simp only [List.length_replicate]
  omega

lemma uv_smooth_replicate (c : ℚ) (n i : ℕ) (h : i < n) :
    uv_smooth (List.replicate n c) i = c := by
  unfold uv_smooth
  rw [uv_window_replicate]
  exact median_replicate c _ (by omega)

lemma uv_mask_replicate_one (n i : ℕ) (h : i < n) :
    uv_mask (List.replicate n 1) i = true := by
  unfold uv_mask
  rw [uv_smooth_replicate 1 n i h]
  simp only [decide_eq_true_eq]
  norm_num

/-- Example reading carrying only a humidity value. -/
def humOnly : RawReading := fun s =>
  match s with
  | .humidity => some 50
  | _ => none

/-- Example reading carrying only a temperature value. -/
def tempOnly : RawReading := fun s =>
  match s with
  | .temperature => some 2
  | _ => none

/-- Example reading carrying a value on every channel. -/
def fullReading : RawReading := fun _ => some 1

/-- Two-interval arrival schedule whose first sink write fails and whose
second would succeed. -/
def failThenOkSteps : List LoopStep :=
  [{ msg := fullReading, elapsed := true, now := 0, writeOk := false },
   { msg := fullReading, elapsed := true, now := 1, writeOk := true }]

/-- One-interval arrival schedule with a successful sink write. -/
def oneGoodStep : List LoopStep :=
  [{ msg := fullReading, elapsed := true, now := 0, writeOk := true }]

/-- Claim C1 counterexample: with a batch whose only reading has no
temperature channel, `aggregate_buffer` stores Python `None` — not 0 —
under `temperature_avg`, and the point handed to the sink carries `None`
(an undefined value) in its `temperature_avg` field, since the
`.get(key, 0)` default never applies to a key that is present. -/
theorem c1_counterexample :
    (aggregate_buffer [humOnly] 0).avg Sensor.temperature = none ∧
    (aggregate_buffer [humOnly] 0).avg Sensor.temperature ≠ some 0 ∧
    ("temperature_avg", PyVal.vNone) ∈
      (buildPoint (aggregate_buffer [humOnly] 0) (fun _ => false)).fields := by
  refine ⟨rfl, by simp [aggregate_buffer, channelValues, humOnly], ?_⟩
  simp [buildPoint, sensorList, sensorName, aggregate_buffer, channelValues, humOnly, pyOf]

/-- Claim C1 (amended): a channel with zero readings in the batch
aggregates to Python `None` — not 0 — for average, minimum and maximum,
and the emitted point's `_avg` field for that channel carries `None`,
because the `.get(key, 0)` default is dead for keys that are always
present. -/
theorem c1_amended (buffer : List RawReading) (now : ℕ) (s : Sensor)
    (flags : Sensor → Bool) (hempty : channelValues buffer s = []) :
    (aggregate_buffer buffer now).avg s = none ∧
    (aggregate_buffer buffer now).min s = none ∧
    (aggregate_buffer buffer now).max s = none ∧
    (sensorName s ++ "_avg", PyVal.vNone) ∈
      (buildPoint (aggregate_buffer buffer now) flags).fields := by
  have havg : (aggregate_buffer buffer now).avg s = none := by
    simp [aggregate_buffer, hempty]
  refine ⟨havg, by simp [aggregate_buffer, hempty], by simp [aggregate_buffer, hempty], ?_⟩
  simp only [buildPoint, List.mem_append]
  left
  rw [List.mem_flatMap]
  refine ⟨s, by cases s <;> simp [sensorList], ?_⟩
  simp [havg, pyOf]

/-- Claim C1 witness: the amended statement at the concrete batch
`[humOnly]` and the temperature channel. -/
theorem c1_witness :
    (aggregate_buffer [humOnly] 0).avg Sensor.temperature = none ∧
    (aggregate_buffer [humOnly] 0).min Sensor.temperature = none ∧
    (aggregate_buffer [humOnly] 0).max Sensor.temperature = none ∧
    (sensorName Sensor.temperature ++ "_avg", PyVal.vNone) ∈
      (buildPoint (aggregate_buffer [humOnly] 0) (fun _ => false)).fields :=
  c1_amended [humOnly] 0 Sensor.temperature (fun _ => false) rfl

/-- Claim C2 counterexample: with history `[10,10,10]` (sample standard
deviation exactly 0), current average 10.5 and threshold 2.0, the code
takes the `z_score = 0` branch — the 1e-4 epsilon substitution of the
claim lives in a branch unreachable under the length guard — so the
anomaly flag is `false`, not `true` as claimed. -/
theorem c2_counterexample :
    detect_one [10, 10, 10] (some (21/2)) 2 = some false := by
  norm_num [detect_one, sampleVar]

/-- Claim C2 (amended): for a channel whose history holds at least 2
points with sample standard deviation exactly zero, the code sets the
z-score to 0, so for any nonnegative threshold the anomaly flag is
`false`; the 1e-4 epsilon is dead code, guarded by a length test that the
outer length guard makes unreachable. -/
theorem c2_amended (h : List ℚ) (x thr : ℚ) (hlen : 2 ≤ h.length)
    (hvar : sampleVar h = 0) (hthr : 0 ≤ thr) :
    detect_one h (some x) thr = some false := by
  have h1 : 1 < h.length := by omega
  simp [detect_one, hlen, h1, hvar, abs_of_nonneg, not_lt.mpr hthr]

/-- Claim C2 witness: the amended statement at the concrete history
`[10,10,10]`, current 10.5, threshold 2. -/
theorem c2_witness : detect_one [10, 10, 10] (some (21/2)) 2 = some false :=
  c2_amended [10, 10, 10] (21/2) 2 (by norm_num) (by norm_num [sampleVar]) (by norm_num)

/-- Claim C3 counterexample: on a two-interval schedule whose first sink
write fails, the loop reaches the outer exception handler and stops —
nothing is ever written, and in particular the second interval is never
processed, refuting that the pipeline proceeds past a write failure. -/
theorem c3_counterexample :
    (fetch_and_process_data failThenOkSteps emptyHist []).written.length = 0 ∧
    (fetch_and_process_data failThenOkSteps emptyHist []).crashed = true := by
  constructor <;> rfl

/-- Claim C3 (amended): a failed sink write raises out of the `while`
loop to the outer handler, which logs it and ends the coroutine: the
write is not retried, the interval's point is lost, and the pipeline does
not process any further interval. -/
theorem c3_amended (step : LoopStep) (rest : List LoopStep)
    (hist : Histories) (buffer : List RawReading)
    (he : step.elapsed = true) (hw : step.writeOk = false)
    (hs : (stepInterval hist (buffer ++ [step.msg]) step.now).isSome = true) :
    (fetch_and_process_data (step :: rest) hist buffer).written = [] ∧
    (fetch_and_process_data (step :: rest) hist buffer).crashed = true := by
  simp only [fetch_and_process_data, he, if_true]
  cases hstep : stepInterval hist (buffer ++ [step.msg]) step.now with
  | none => rw [hstep] at hs; simp at hs
  | some pr =>
      obtain ⟨pt, hist2⟩ := pr
      simp [hw]

/-- Claim C3 witness: the amended statement at the concrete two-interval
schedule with a failing first write. -/
theorem c3_witness :
    (fetch_and_process_data failThenOkSteps emptyHist []).written = [] ∧
    (fetch_and_process_data failThenOkSteps emptyHist []).crashed = true :=
  c3_amended { msg := fullReading, elapsed := true, now := 0, writeOk := false }
    [{ msg := fullReading, elapsed := true, now := 1, writeOk := true }]
    emptyHist [] rfl rfl rfl

/-- Claim C4: at every interval boundary the anomaly flags are computed
from the history excluding the current batch (the history update loop runs
only after `detect_anomalies` returns), the update appends the current
average and evicts the oldest entry once the length passes 10, and every
history reachable by the loop from the empty initial state stays within 10
entries. -/
theorem c4_theorem :
    (∀ (steps : List LoopStep) (hist : Histories) (buffer : List RawReading),
        (∀ s, (hist s).length ≤ 10) →
        ∀ s, ((fetch_and_process_data steps hist buffer).hist s).length ≤ 10) ∧
    (∀ (h : List ℚ) (x : ℚ), h.length = 10 →
        updateHistory h (some x) = h.drop 1 ++ [x]) ∧
    (∀ (hist : Histories) (buffer : List RawReading) (now : ℕ)
        (pt : OutputPoint) (hist2 : Histories),
        stepInterval hist buffer now = some (pt, hist2) →
        ∃ flags, detect_anomalies hist (aggregate_buffer buffer now) = some flags ∧
          pt = buildPoint (aggregate_buffer buffer now) flags ∧
          hist2 = updateAll hist (aggregate_buffer buffer now)) := by
  refine ⟨runLoop_hist_bounded, ?_, ?_⟩
  · intro h x hlen
    simp only [updateHistory]
    rw [if_pos (by simp [hlen] : 10 < (h ++ [x]).length)]
    exact List.drop_append_of_le_length (by omega)
  · intro hist buffer now pt hist2 hstep
    simp only [stepInterval] at hstep
    cases hda : detect_anomalies hist (aggregate_buffer buffer now) with
    | none => rw [hda] at hstep; simp at hstep
    | some flags =>
        rw [hda] at hstep
        simp only [Option.some.injEq, Prod.mk.injEq] at hstep
        exact ⟨flags, rfl, hstep.1.symm, hstep.2.symm⟩

/-- Claim C4 witness: the bound instantiated on a concrete schedule from
the empty state, and the eviction equation at a concrete full history. -/
theorem c4_witness :
    ((fetch_and_process_data oneGoodStep emptyHist []).hist Sensor.temperature).length ≤ 10 ∧
    updateHistory [0, 1, 2, 3, 4, 5, 6, 7, 8, 9] (some 10) =
      [1, 2, 3, 4, 5, 6, 7, 8, 9, 10] :=
  ⟨c4_theorem.1 oneGoodStep emptyHist [] (fun _ => by simp [emptyHist]) Sensor.temperature,
   c4_theorem.2.1 [0, 1, 2, 3, 4, 5, 6, 7, 8, 9] 10 (by simp)⟩

/-- The 24 field keys of the emitted point, in source order. -/
def pointFieldNames : List String :=
  ["temperature_avg", "temperature_min", "temperature_max",
   "humidity_avg", "humidity_min", "humidity_max",
   "pressure_avg", "pressure_min", "pressure_max",
   "AQI_avg", "AQI_min", "AQI_max",
   "uv_data_avg", "uv_data_min", "uv_data_max",
   "ambient_light_avg", "ambient_light_min", "ambient_light_max",
   "temperature_anomaly", "humidity_anomaly", "pressure_anomaly",
   "AQI_anomaly", "uv_data_anomaly", "ambient_light_anomaly"]

/-- Claim C5 counterexample: the point written to the sink has no
`sunlight_exposure`, `light_on_event` or `light_off_event` field — the
event flags of the claim are not part of the emitted record. -/
theorem c5_counterexample :
    "sunlight_exposure" ∉
      (buildPoint (aggregate_buffer [] 0) (fun _ => false)).fields.map Prod.fst ∧
    "light_on_event" ∉
      (buildPoint (aggregate_buffer [] 0) (fun _ => false)).fields.map Prod.fst ∧
    "light_off_event" ∉
      (buildPoint (aggregate_buffer [] 0) (fun _ => false)).fields.map Prod.fst := by
  refine ⟨?_, ?_, ?_⟩ <;> decide

/-- Claim C5 (amended): every emitted point carries exactly the 18
per-channel `_avg` / `_min` / `_max` fields and the 6 per-channel
`_anomaly` fields (integer-encoded 0/1, via `int(flag)`), in fixed source
order, the fixed tag `location=office`, the measurement `environment`,
and the single aggregate timestamp; it carries no event flag fields. -/
theorem c5_amended (agg : Agg) (flags : Sensor → Bool) :
    (buildPoint agg flags).fields.map Prod.fst = pointFieldNames ∧
    (buildPoint agg flags).tags = [("location", "office")] ∧
    (buildPoint agg flags).time = agg.timestamp ∧
    (buildPoint agg flags).measurement = "environment" :=
  ⟨rfl, rfl, rfl, rfl⟩

/-- Claim C5 witness: the amended statement at a concrete aggregate. -/
theorem c5_witness :
    (buildPoint (aggregate_buffer [] 0) (fun _ => false)).fields.map Prod.fst =
      pointFieldNames ∧
    (buildPoint (aggregate_buffer [] 0) (fun _ => false)).tags =
      [("location", "office")] ∧
    (buildPoint (aggregate_buffer [] 0) (fun _ => false)).time =
      (aggregate_buffer [] 0).timestamp ∧
    (buildPoint (aggregate_buffer [] 0) (fun _ => false)).measurement = "environment" :=
  c5_amended (aggregate_buffer [] 0) (fun _ => false)

/-- Run of exactly 40 batches of constant raw UV 1.0; its centered rolling
median is 1 everywhere, at or above the 0.85 threshold. -/
def uvRun40 : List ℚ := List.replicate 40 1

/-- Claim C6 counterexample: the dashboard has no run-length counter and
no 40-sample edge trigger.  Over a run of exactly 40 consecutive batches
with smoothed UV at or above 0.85, its exposure signal is already true at
the first batch of the run, and the band start marker sits at batch 0 and
not at batch 39 — refuting `sustained = true` on exactly the 40th batch
and false on every other. -/
theorem c6_counterexample :
    uv_mask uvRun40 0 = true ∧ uvBandStart uvRun40 0 = true ∧
    uvBandStart uvRun40 39 = false := by
  have h0 : uv_mask uvRun40 0 = true := uv_mask_replicate_one 40 0 (by omega)
  have h38 : uv_mask uvRun40 38 = true := uv_mask_replicate_one 40 38 (by omega)
  have h39 : uv_mask uvRun40 39 = true := uv_mask_replicate_one 40 39 (by omega)
  refine ⟨h0, ?_, ?_⟩
  · simp [uvBandStart, runStart, h0]
  · simp [uvBandStart, runStart, h39]
    exact h38

/-- Claim C6 (amended): the dashboard's sunlight-exposure signal is a
level, not an edge trigger: a row is exposed iff its centered rolling
median (window 21, `min_periods` 1) is at least 0.85, and each maximal run
of exposed rows becomes one shaded band whose start marker sits on the
run's first row.  On a run of 40 consecutive qualifying batches the signal
is true on all 40 rows and the band starts at row 0. -/
theorem c6_amended (i : ℕ) (hi : i < 40) :
    uv_mask uvRun40 i = true ∧
    uvBandStart uvRun40 i = decide (i = 0) := by
  have hm : uv_mask uvRun40 i = true := uv_mask_replicate_one 40 i hi
  refine ⟨hm, ?_⟩
  cases i with
  | zero => simp [uvBandStart, runStart, hm]
  | succ j =>
      have hj : uv_mask uvRun40 j = true := uv_mask_replicate_one 40 j (by omega)
      simp [uvBandStart, runStart, hm]
      exact hj

/-- Claim C6 witness: the amended statement at rows 0 and 17 of the
40-batch run. -/
theorem c6_witness :
    (uv_mask uvRun40 0 = true ∧ uvBandStart uvRun40 0 = decide (0 = 0)) ∧
    (uv_mask uvRun40 17 = true ∧ uvBandStart uvRun40 17 = decide (17 = 0)) :=
  ⟨c6_amended 0 (by omega), c6_amended 17 (by omega)⟩

/-- Ambient-light rows 0, 25, 0, 25: two separate above-cutoff runs in
immediate succession (the rows can be arbitrarily close in time — the
dashboard never looks at timestamps here). -/
def lightRuns : List ℚ := [0, 25, 0, 25]

/-- Claim C7 counterexample: there is no time-based debounce: with
ambient-light rows `[0, 25, 0, 25]` — two raw on candidates less than one
aggregation interval apart — a "light turned on" marker is emitted for
BOTH candidates (rows 1 and 3), refuting that the second emits false. -/
theorem c7_counterexample :
    lightOnMarker lightRuns 1 = true ∧ lightOnMarker lightRuns 3 = true := by
  constructor <;> norm_num [lightOnMarker, runStart, light_mask, lightRuns]

/-- Claim C7 (amended): light-on events are derived purely from run
structure with no debounce clock (and no `light_on_event` field is ever
written to the sink): the "light turned on" marker sits on row `i` of the
chart exactly when the row is at or above the 20-lux cutoff and is the
first row of its maximal run; within one contiguous run only the first row
is marked, while a new run is always marked no matter how little time
separates it from the previous one. -/
theorem c7_amended (ys : List ℚ) (i : ℕ) (hpos : 0 < i) :
    (light_mask ys (i - 1) = true → lightOnMarker ys i = false) ∧
    (light_mask ys i = true → light_mask ys (i - 1) = false →
      lightOnMarker ys i = true) := by
  constructor
  · intro hprev
    simp [lightOnMarker, runStart, hprev, Nat.pos_iff_ne_zero.mp hpos]
  · intro hi hprev
    simp [lightOnMarker, runStart, hi, hprev]

/-- Claim C7 witness: the amended statement applied inside the first run
(row 2 of `[0, 25, 25, 25]` is unmarked) and at a run start (row 1). -/
theorem c7_witness :
    lightOnMarker [0, 25, 25, 25] 2 = false ∧
    lightOnMarker [0, 25, 25, 25] 1 = true :=
  ⟨(c7_amended [0, 25, 25, 25] 2 (by omega)).1
      (by norm_num [light_mask]),
   (c7_amended [0, 25, 25, 25] 1 (by omega)).2
      (by norm_num [light_mask]) (by norm_num [light_mask])⟩

/-- Claim C8: a channel whose history holds fewer than 2 points gets
anomaly flag `false`, by a normal return — the insufficient-history branch
raises nothing, even when the current average is Python `None`. -/
theorem c8_theorem (history : List ℚ) (current : Option ℚ) (thr : ℚ)
    (hlen : history.length < 2) :
    detect_one history current thr = some false := by
  unfold detect_one
  rw [if_neg (by omega)]

/-- Claim C8 witness: a one-point history yields `false` without error,
even for an absent current average. -/
theorem c8_witness : detect_one [5] none 2 = some false :=
  c8_theorem [5] none 2 (by simp)

/-- Claim C9: whenever a channel has at least one reading in the batch,
its aggregated values satisfy min ≤ avg ≤ max. -/
theorem c9_theorem (buffer : List RawReading) (now : ℕ) (s : Sensor)
    (v m M : ℚ)
    (hv : (aggregate_buffer buffer now).avg s = some v)
    (hm : (aggregate_buffer buffer now).min s = some m)
    (hM : (aggregate_buffer buffer now).max s = some M) :
    m ≤ v ∧ v ≤ M := by
  simp only [aggregate_buffer] at hv hm hM
  cases hcv : channelValues buffer s with
  | nil => rw [hcv] at hv; simp at hv
  | cons x xs =>
      rw [hcv] at hv hm hM
      simp only [Option.some.injEq] at hv hm hM
      subst hv; subst hm; subst hM
      have hlen : (0 : ℚ) < ((x :: xs).length : ℚ) := by
        simp only [List.length_cons]
        positivity
      constructor
      · have hall : ∀ y ∈ x :: xs, xs.foldl min x ≤ y := by
          intro y hy
          rcases List.mem_cons.mp hy with rfl | hy2
          · exact (foldl_min_le xs y).1
          · exact (foldl_min_le xs x).2 y hy2
        have hsum := mul_le_sum_of_forall_le (x :: xs) _ hall
        rw [le_div_iff₀ hlen, mul_comm]
        exact hsum
      · have hall : ∀ y ∈ x :: xs, y ≤ xs.foldl max x := by
          intro y hy
          rcases List.mem_cons.mp hy with rfl | hy2
          · exact (le_foldl_max xs y).1
          · exact (le_foldl_max xs x).2 y hy2
        have hsum := sum_le_mul_of_forall_le (x :: xs) _ hall
        rw [div_le_iff₀ hlen, mul_comm]
        exact hsum

/-- Claim C9 witness: the bound at a concrete one-reading batch. -/
theorem c9_witness : (2 : ℚ) ≤ 2 ∧ (2 : ℚ) ≤ 2 :=
  c9_theorem [tempOnly] 0 Sensor.temperature 2 2 2
    (by norm_num [aggregate_buffer, channelValues, tempOnly,
          List.filterMap_cons, List.filterMap_nil])
    (by norm_num [aggregate_buffer, channelValues, tempOnly,
          List.filterMap_cons, List.filterMap_nil])
    (by norm_num [aggregate_buffer, channelValues, tempOnly,
          List.filterMap_cons, List.filterMap_nil])

/-- History state holding two distinct temperature entries (nonzero sample
standard deviation) and nothing else. -/
def histTemp2 : Histories := fun s =>
  match s with
  | .temperature => [1, 2]
  | _ => []

/-- History state holding two equal temperature entries (sample standard
deviation exactly zero) and nothing else. -/
def histTemp55 : Histories := fun s =>
  match s with
  | .temperature => [5, 5]
  | _ => []

/-- Claim C10 counterexample: with temperature history `[5, 5]` (length 2,
sample standard deviation exactly 0) and a batch with no temperature
readings, Python's conditional expression short-circuits to `z_score = 0`
without ever evaluating `current_value - hist_mean`: detection returns a
normal `false` flag, the whole call returns flags, and the interval
completes — refuting that every channel absent from the batch with at
least 2 history entries makes the interval abort. -/
theorem c10_counterexample :
    2 ≤ (histTemp55 Sensor.temperature).length ∧
    channelValues [] Sensor.temperature = [] ∧
    detect_one (histTemp55 Sensor.temperature)
      ((aggregate_buffer [] 0).avg Sensor.temperature)
      (THRESHOLDS Sensor.temperature) = some false ∧
    (detect_anomalies histTemp55 (aggregate_buffer [] 0)).isSome = true ∧
    (stepInterval histTemp55 [] 0).isSome = true := by
  have havg : ∀ s, (aggregate_buffer [] 0).avg s = none := fun s => rfl
  have hT : detect_one [5, 5] (none : Option ℚ) 2 = some false := by
    norm_num [detect_one, sampleVar]
  have hE : ∀ thr : ℚ, detect_one [] (none : Option ℚ) thr = some false := by
    intro thr
    unfold detect_one
    rw [if_neg (by simp)]
  refine ⟨by simp [histTemp55], rfl, ?_, ?_, ?_⟩
  · rw [havg]
    simpa [histTemp55, THRESHOLDS] using hT
  · simp [detect_anomalies, histTemp55, THRESHOLDS, havg, hT, hE]
  · simp [stepInterval, detect_anomalies, histTemp55, THRESHOLDS, havg, hT, hE]

/-- Claim C10 (amended): `detect_anomalies` is total only when every
channel with at least 2 history entries and a nonzero sample standard
deviation has a numeric current average: if such a channel is absent from
the entire batch (average is Python `None`), the conditional takes the
division branch and the subtraction `current_value - hist_mean` raises,
the whole call errors instead of returning flags, and the interval's
processing aborts.  (With a zero standard deviation the conditional
short-circuits to `z_score = 0` and the interval completes.) -/
theorem c10_theorem (hist : Histories) (buffer : List RawReading) (now : ℕ)
    (s : Sensor) (hlen : 2 ≤ (hist s).length)
    (hvar : sampleVar (hist s) ≠ 0)
    (habs : channelValues buffer s = []) :
    detect_anomalies hist (aggregate_buffer buffer now) = none ∧
    stepInterval hist buffer now = none := by
  have havg : (aggregate_buffer buffer now).avg s = none := by
    simp [aggregate_buffer, habs]
  have hone : detect_one (hist s) ((aggregate_buffer buffer now).avg s)
      (THRESHOLDS s) = none := by
    rw [havg]
    have h1 : 1 < (hist s).length := by omega
    simp [detect_one, hlen, h1, hvar]
  have hda := detect_anomalies_eq_none hist _ s hone
  exact ⟨hda, by simp [stepInterval, hda]⟩

/-- Claim C10 witness: temperature history `[1, 2]` (sample variance 1/2)
and an empty batch make detection — and the whole interval — abort. -/
theorem c10_witness :
    detect_anomalies histTemp2 (aggregate_buffer [] 0) = none ∧
    stepInterval histTemp2 [] 0 = none :=
  c10_theorem histTemp2 [] 0 Sensor.temperature (by simp [histTemp2])
    (by norm_num [histTemp2, sampleVar]) rfl
